import Mathlib

set_option maxRecDepth 100000

/-!
Verification of the Oklahoma gendered-mortality data-cleaning script
(src/code/01_generate_dataset.py).

The script transforms irregularly formatted CSV exports into tidy tables via
three cleaning routines: `clean_deaths_dataframe`, `clean_birth_rate_dataframe`
and `clean_live_births_dataframe`.  A raw table is modelled as a list of rows
whose positional cells `col0..col4` are `Option String` (`none` models a
missing/NaN cell, as produced by `pd.read_csv` for an empty field).  Numeric
measures are modelled as rationals.

Each pandas operation of the source is embedded as a pure function:
  - `Series.ffill`                        -> `ffill`
  - `str.extract ((\d\x7b4\x7d)) + to_numeric`  -> `extractYear`
  - the `is_county` closures              -> `is_county`
  - `Series.where(mask)`                  -> `where_county` / `Option.filter`
  - `replace(".", nan) + to_numeric(coerce) + fillna(0)` -> `to_measure`
  - `Series.unique` on a dropna column    -> `pdUnique` after `filterMap`
  - `pd.MultiIndex.from_product`          -> `full_index` (`List.product`)
  - `pd.merge(..., how=left) + fillna(0)` -> `merged_rows`
  - `groupby(sort=True).agg(sum, mean)`   -> `groupby_agg` (insertion sort)
-/

/-- A raw positional row: the first five cells of one CSV record, read purely
positionally (the source renames `df.columns[i]` to `coli`).  `none` is a
missing (NaN) cell.  The deaths variant uses `col0..col2`, the live-births
variant `col0..col3`, the birth-rate variant `col0..col4`. -/
structure RawRow where
  col0 : Option String
  col1 : Option String
  col2 : Option String
  col3 : Option String
  col4 : Option String
deriving DecidableEq, Repr

/-- Output record of `clean_deaths_dataframe`; the field order mirrors the
final projection `df[["year", "county", "sex", "race", "deaths"]]`. -/
structure DeathsRecord where
  year : Option Nat
  county : Option String
  sex : String
  race : String
  deaths : ℚ
deriving DecidableEq, Repr

/-- Output record of `clean_birth_rate_dataframe`; field order mirrors
`df[["year", "county", demo_col, "births", "population", "birth_rate"]]`. -/
structure BirthRateRecord where
  year : Option Nat
  county : Option String
  demo : String
  births : ℚ
  population : ℚ
  birth_rate : ℚ
deriving DecidableEq, Repr

/-- A classified live-births data row (the filtered frame of
`clean_live_births_dataframe` just before grid completion). -/
structure LBDataRow where
  year : Option Nat
  county : Option String
  demo : String
  live_births : ℚ
  percent_live_births : ℚ
deriving DecidableEq, Repr

/-- Output record of `clean_live_births_dataframe` (grid-completed, so the
key fields are never missing); field order mirrors the grouped frame
`year, county, demo_col, live_births, percent_live_births`. -/
structure LiveBirthsRecord where
  year : Nat
  county : String
  demo : String
  live_births : ℚ
  percent_live_births : ℚ
deriving DecidableEq, Repr

/-- The race vocabulary hard-coded inside `clean_deaths_dataframe`. -/
def race_list : List String :=
  ["White",
   "Black or African American",
   "American Indian or Alaska Native",
   "Asian",
   "Native Hawaiian or Other Pacific Islander",
   "Other",
   "Unknown",
   "More than one race"]

/-- The structural header tokens excluded by the `is_county` closures of the
deaths and birth-rate variants. -/
def header_tokens : List String :=
  ["County of Residence", "Search Characteristic", "Values Selected"]

/-- The structural header tokens of the live-births variant, which adds the
education header to the shared three. -/
def lb_header_tokens : List String :=
  header_tokens ++ ["Mother\x27s Education-5 Category"]

/-- Leading and trailing whitespace removed from a character list. -/
def trimChars (cs : List Char) : List Char :=
  ((cs.dropWhile Char.isWhitespace).reverse.dropWhile Char.isWhitespace).reverse

/-- Python `str.strip()` / pandas `.str.strip()`: surrounding whitespace
removed. -/
def pyStrip (s : String) : String :=
  String.mk (trimChars s.data)

/-- Python `str.startswith(pre)`: prefix test on the character lists. -/
def pyStartsWith (s pre : String) : Bool :=
  pre.data.isPrefixOf s.data

/-- `Series.ffill` with an explicit accumulator: a missing entry is replaced
by the most recent non-missing value seen so far (`last`). -/
def ffillAux {α : Type} (last : Option α) : List (Option α) → List (Option α)
  | [] => []
  | none :: xs => last :: ffillAux last xs
  | some v :: xs => some v :: ffillAux (some v) xs

/-- `Series.ffill`: forward-fill a column of optional values. -/
def ffill {α : Type} (xs : List (Option α)) : List (Option α) :=
  ffillAux none xs

/-- Numeric value of a decimal digit character. -/
def digitVal (c : Char) : Nat := c.toNat - 48

/-- Value of a string of decimal digits (most significant first). -/
def natOfDigits (ds : List Char) : Nat :=
  ds.foldl (fun n c => 10 * n + digitVal c) 0

/-- `str(cell)` as applied by `astype(str)`: a NaN cell prints as "nan". -/
def astype_str (c : Option String) : String :=
  match c with
  | none => "nan"
  | some s => s

/-- Is there a run of four digits starting at the head of the character list?
If so, their numeric value (the regex group of four digit characters). -/
def fourDigitsHere : List Char → Option Nat
  | a :: b :: c :: d :: _ =>
    if a.isDigit && b.isDigit && c.isDigit && d.isDigit then
      some (natOfDigits [a, b, c, d])
    else none
  | _ => none

/-- First run of four consecutive digits in a character list, as searched by
the regex of four digit characters in `str.extract`. -/
def findFourDigits : List Char → Option Nat
  | [] => none
  | c :: rest =>
    match fourDigitsHere (c :: rest) with
    | some n => some n
    | none => findFourDigits rest

/-- The year extraction of every variant: `astype(str)`, regex-extract the
first four-digit run, `to_numeric` it (coercion never fails on four digits),
as a nullable integer. -/
def extractYear (c : Option String) : Option Nat :=
  findFourDigits (astype_str c).toList

/-- The `is_county` closure (shared shape of all three variants): a cell
denotes a county iff it is non-missing and its trimmed value is not a
vocabulary member, not a structural header token, and not prefixed "Year". -/
def is_county (vocab tokens : List String) (x : Option String) : Bool :=
  match x with
  | none => false
  | some s =>
    let t := pyStrip s
    if vocab.contains t then false
    else if tokens.contains t then false
    else if pyStartsWith t "Year" then false
    else true

/-- `col0.where(col0.apply(is_county))`: keep the original cell where the
classifier holds, missing elsewhere. -/
def where_county (vocab tokens : List String) (c : Option String) : Option String :=
  if is_county vocab tokens c then c else none

/-- The reconstructed year column: extract a year per row, then ffill. -/
def year_column (cells : List (Option String)) : List (Option Nat) :=
  ffill (cells.map extractYear)

/-- The reconstructed county column (`county_raw` then ffill). -/
def county_column (vocab tokens : List String) (cells : List (Option String)) :
    List (Option String) :=
  ffill (cells.map (where_county vocab tokens))

/-- Unsigned decimal-exponent digits: nonempty and all digits. -/
def parseExpDigits (cs : List Char) : Option Nat :=
  if cs ≠ [] ∧ cs.all Char.isDigit then some (natOfDigits cs) else none

/-- Optionally signed exponent part following an e/E marker. -/
def parseExpPart (cs : List Char) : Option Int :=
  match cs with
  | '-' :: rest => (parseExpDigits rest).map (fun n => -(n : Int))
  | '+' :: rest => (parseExpDigits rest).map (fun n => (n : Int))
  | _ => (parseExpDigits cs).map (fun n => (n : Int))

/-- Attach an optional exponent suffix to a parsed mantissa; any other
trailing characters make the parse fail. -/
def withExp (m : ℚ) : List Char → Option ℚ
  | [] => some m
  | 'e' :: rest => (parseExpPart rest).map (fun e => m * (10 : ℚ) ^ e)
  | 'E' :: rest => (parseExpPart rest).map (fun e => m * (10 : ℚ) ^ e)
  | _ => none

/-- Unsigned decimal literal: integer digits, optional fractional part,
optional exponent; at least one digit must be present. -/
def parseUnsigned (cs : List Char) : Option ℚ :=
  let ip := cs.takeWhile Char.isDigit
  let rest := cs.dropWhile Char.isDigit
  match rest with
  | [] => if ip.isEmpty then none else some ((natOfDigits ip : ℚ))
  | '.' :: rest2 =>
    let fp := rest2.takeWhile Char.isDigit
    let rest3 := rest2.dropWhile Char.isDigit
    if ip.isEmpty && fp.isEmpty then none
    else
      withExp ((natOfDigits ip : ℚ) + (natOfDigits fp : ℚ) / (10 : ℚ) ^ fp.length) rest3
  | _ => if ip.isEmpty then none else withExp ((natOfDigits ip : ℚ)) rest

/-- Model of `pd.to_numeric(s, errors="coerce")` on one string cell: strip
surrounding whitespace, then parse an optionally signed decimal literal with
optional fraction and exponent; `none` models coercion to NaN. -/
def parseNum (s : String) : Option ℚ :=
  match trimChars s.data with
  | '-' :: rest => (parseUnsigned rest).map (fun q => -q)
  | '+' :: rest => parseUnsigned rest
  | cs => parseUnsigned cs

/-- The measure extractor of every variant:
`replace(".", nan)`, `to_numeric(errors="coerce")`, `fillna(0)`. -/
def to_measure (c : Option String) : ℚ :=
  let sentinel_free : Option String :=
    match c with
    | none => none
    | some s => if s = "." then none else some s
  match sentinel_free with
  | none => 0
  | some s => (parseNum s).getD 0

/-- The per-row intermediate frame of `clean_deaths_dataframe`: each raw row
zipped with its reconstructed (year, county). -/
def deaths_stage (df : List RawRow) : List (RawRow × Option Nat × Option String) :=
  df.zip ((year_column (df.map RawRow.col0)).zip
    (county_column race_list header_tokens (df.map RawRow.col0)))

/-- `clean_deaths_dataframe(df, sex)`: reconstruct year and county, extract
the race from `col1` by exact vocabulary membership, coerce the deaths
measure, keep only race rows, attach the sex label, and project in the order
year, county, sex, race, deaths. -/
def clean_deaths_dataframe (df : List RawRow) (sex : String) : List DeathsRecord :=
  (deaths_stage df).filterMap (fun p =>
    match p.1.col1 with
    | some v =>
      if race_list.contains v then
        some ⟨p.2.1, p.2.2, sex, v, to_measure p.1.col2⟩
      else none
    | none => none)

/-- The per-row intermediate frame of `clean_birth_rate_dataframe`. -/
def birth_rate_stage (df : List RawRow) (demo_list : List String) :
    List (RawRow × Option Nat × Option String) :=
  df.zip ((year_column (df.map RawRow.col0)).zip
    (county_column demo_list header_tokens (df.map RawRow.col0)))

/-- `clean_birth_rate_dataframe(df, demo_col, demo_list)`: reconstruct year
and county, extract the demographic category from `col1` by exact membership,
coerce births, population and birth_rate, keep only demographic rows, and
project in the order year, county, demo, births, population, birth_rate. -/
def clean_birth_rate_dataframe (df : List RawRow) (demo_list : List String) :
    List BirthRateRecord :=
  (birth_rate_stage df demo_list).filterMap (fun p =>
    match p.1.col1 with
    | some v =>
      if demo_list.contains v then
        some ⟨p.2.1, p.2.2, v, to_measure p.1.col2, to_measure p.1.col3,
              to_measure p.1.col4⟩
      else none
    | none => none)

/-- The two-column demographic extraction of the live-births variant:
`col0.where(isin(demo_list))` then `fillna(col1.where(isin(demo_list)))` —
the primary column takes priority, the secondary is the fallback. -/
def demo_value (demo_list : List String) (c0 c1 : Option String) : Option String :=
  Option.or (Option.filter (fun s => demo_list.contains s) c0)
    (Option.filter (fun s => demo_list.contains s) c1)

/-- The per-row intermediate frame of `clean_live_births_dataframe`; its
county column is additionally stripped after the forward-fill. -/
def lb_stage (df : List RawRow) (demo_list : List String) :
    List (RawRow × Option Nat × Option String) :=
  df.zip ((year_column (df.map RawRow.col0)).zip
    ((county_column demo_list lb_header_tokens (df.map RawRow.col0)).map
      (Option.map pyStrip)))

/-- The classified live-births data rows: the filtered frame of
`clean_live_births_dataframe` just before grid completion
(`df[df[demo_col].isin(demo_list)]` with its coerced measures). -/
def lb_classified (df : List RawRow) (demo_list : List String) : List LBDataRow :=
  (lb_stage df demo_list).filterMap (fun p =>
    match demo_value demo_list p.1.col0 p.1.col1 with
    | some v =>
      some ⟨p.2.1, p.2.2, v, to_measure p.1.col2, to_measure p.1.col3⟩
    | none => none)

/-- `Series.unique` preserving first-occurrence order, with the set of values
already emitted carried as `seen`. -/
def pdUniqueAux {α : Type} [DecidableEq α] (seen : List α) : List α → List α
  | [] => []
  | x :: xs =>
    if seen.contains x then pdUniqueAux seen xs
    else x :: pdUniqueAux (x :: seen) xs

/-- `Series.unique`: distinct values in first-occurrence order. -/
def pdUnique {α : Type} [DecidableEq α] (l : List α) : List α :=
  pdUniqueAux [] l

/-- `df["year"].dropna().unique()` on the classified rows. -/
def observed_years (rows : List LBDataRow) : List Nat :=
  pdUnique (rows.filterMap LBDataRow.year)

/-- `df["county"].dropna().unique()` on the classified rows. -/
def observed_counties (rows : List LBDataRow) : List String :=
  pdUnique (rows.filterMap LBDataRow.county)

/-- `pd.MultiIndex.from_product([years, counties, demo_list])`: the Cartesian
product in nested-loop order (last dimension fastest). -/
def full_index (years : List Nat) (counties demo_list : List String) :
    List (Nat × String × String) :=
  List.product years (List.product counties demo_list)

/-- The classified rows matching one grid key exactly (the rows joined onto
that key by `pd.merge` on year, county and the demographic column). -/
def matching_rows (rows : List LBDataRow) (k : Nat × String × String) :
    List LBDataRow :=
  rows.filter (fun r =>
    decide (r.year = some k.1 ∧ r.county = some k.2.1 ∧ r.demo = k.2.2))

/-- The merged rows contributed by one grid key: its matching data rows, or a
single zero-filled row when nothing matches (`how="left"` then `fillna(0)`). -/
def blockFun (rows : List LBDataRow) (k : Nat × String × String) :
    List ((Nat × String × String) × ℚ × ℚ) :=
  match matching_rows rows k with
  | [] => [(k, 0, 0)]
  | m :: ms => (m :: ms).map (fun r => (k, r.live_births, r.percent_live_births))

/-- `pd.merge(df_full, df, on=[year, county, demo], how="left")` followed by
`fillna(0)` on both measures: each grid key in grid order, expanded to its
matching rows (or one zero row). -/
def merged_rows (rows : List LBDataRow) (grid : List (Nat × String × String)) :
    List ((Nat × String × String) × ℚ × ℚ) :=
  grid.flatMap (blockFun rows)

/-- Lexicographic order on (year, county, demo) keys, as used by the sorted
pandas `groupby`. -/
def keyLE (a b : Nat × String × String) : Bool :=
  if a.1 < b.1 then true
  else if b.1 < a.1 then false
  else if a.2.1 < b.2.1 then true
  else if b.2.1 < a.2.1 then false
  else !decide (b.2.2 < a.2.2)

/-- Ordered insertion for the key sort. -/
def insertKey (x : Nat × String × String) :
    List (Nat × String × String) → List (Nat × String × String)
  | [] => [x]
  | y :: ys => if keyLE x y then x :: y :: ys else y :: insertKey x ys

/-- Sort the distinct keys (pandas `groupby` emits groups sorted by key). -/
def sortKeys : List (Nat × String × String) → List (Nat × String × String)
  | [] => []
  | x :: xs => insertKey x (sortKeys xs)

/-- The aggregation of one group:
`agg(live_births = sum, percent_live_births = mean)`. -/
def agg_key (rows : List ((Nat × String × String) × ℚ × ℚ))
    (k : Nat × String × String) : LiveBirthsRecord :=
  let grp := rows.filter (fun r => decide (r.1 = k))
  ⟨k.1, k.2.1, k.2.2,
   (grp.map (fun r => r.2.1)).sum,
   (grp.map (fun r => r.2.2)).sum / (grp.length : ℚ)⟩

/-- `groupby(["year", "county", demo_col], as_index=False).agg(...)`:
one aggregated record per distinct key, sorted by key. -/
def groupby_agg (rows : List ((Nat × String × String) × ℚ × ℚ)) :
    List LiveBirthsRecord :=
  (sortKeys (pdUnique (rows.map (fun r => r.1)))).map (agg_key rows)

/-- `clean_live_births_dataframe(df, demo_col, demo_list)`: classify and
coerce the rows, build the full year-county-vocabulary grid from the observed
dimensions, left-merge the data onto it with zero fill, and aggregate
duplicate keys (sum of live births, mean of the percentage). -/
def clean_live_births_dataframe (df : List RawRow) (demo_list : List String) :
    List LiveBirthsRecord :=
  let rows := lb_classified df demo_list
  let grid := full_index (observed_years rows) (observed_counties rows) demo_list
  groupby_agg (merged_rows rows grid)

/-- The caller-visible state of one `clean_deaths_dataframe` call: the
argument frame after the call (the source rebinds `df` to a renamed copy and
performs every assignment on that copy, so the input is returned unchanged)
together with the returned tidy frame. -/
def clean_deaths_call (df : List RawRow) (sex : String) :
    List RawRow × List DeathsRecord :=
  (df, clean_deaths_dataframe df sex)

/-- The caller-visible state of one `clean_birth_rate_dataframe` call. -/
def clean_birth_rate_call (df : List RawRow) (demo_list : List String) :
    List RawRow × List BirthRateRecord :=
  (df, clean_birth_rate_dataframe df demo_list)

/-- The caller-visible state of one `clean_live_births_dataframe` call. -/
def clean_live_births_call (df : List RawRow) (demo_list : List String) :
    List RawRow × List LiveBirthsRecord :=
  (df, clean_live_births_dataframe df demo_list)

/-- A trimmed value is structural iff it is one of the fixed header tokens or
carries the "Year" prefix — the metadata classes the county classifier
excludes besides the vocabulary. -/
def is_structural (tokens : List String) (t : String) : Bool :=
  tokens.contains t || pyStartsWith t "Year"

/-- The five-row deaths example of the specification: a year header row, two
race data rows, a county header row, one more race data row.  Empty CSV
fields are missing cells. -/
def deaths_example_input : List RawRow :=
  [⟨some "2020 Total", none, some "5", none, none⟩,
   ⟨none, some "White", some "3", none, none⟩,
   ⟨none, some "Black or African American", some "2", none, none⟩,
   ⟨some "Oklahoma County", none, none, none, none⟩,
   ⟨none, some "White", some "1", none, none⟩]

/-- The first tidy record produced from `deaths_example_input`. -/
def deaths_example_rec : DeathsRecord :=
  ⟨some 2020, some "2020 Total", "Male", "White", 3⟩

/-- A small live-births example: one year header, two county headers, one
data row per county, vocabulary of two categories. -/
def lb_example_input : List RawRow :=
  [⟨some "Year 2020 Total", none, none, none, none⟩,
   ⟨some "CountyX", none, none, none, none⟩,
   ⟨none, some "A", some "7", some "50", none⟩,
   ⟨some "CountyY", none, none, none, none⟩,
   ⟨none, some "B", some "3", some "25", none⟩]

/-- The two-element vocabulary of the live-births example. -/
def example_vocab : List String := ["A", "B"]

/-- A three-cell primary column used to exercise the county reconstruction. -/
def county_example_cells : List (Option String) :=
  [some "2020 Total", none, some "Oklahoma County"]

/-! ## Forward-fill lemmas -/

theorem getLast?_cons_or {α : Type} (a : α) (l : List α) :
    (a :: l).getLast? = Option.or l.getLast? (some a) := by
  induction l generalizing a with
  | nil => rfl
  | cons b t ih =>
    rw [List.getLast?_cons_cons, ih b]
    cases t.getLast? <;> rfl

theorem ffillAux_length {α : Type} (xs : List (Option α)) :
    ∀ last : Option α, (ffillAux last xs).length = xs.length := by
  induction xs with
  | nil => intro last; rfl
  | cons x xs ih =>
    intro last
    cases x <;> simp [ffillAux, ih]

theorem ffill_length {α : Type} (xs : List (Option α)) :
    (ffill xs).length = xs.length :=
  ffillAux_length xs none

theorem ffillAux_getElem? {α : Type} (xs : List (Option α)) :
    ∀ (last : Option α) (i : Nat), i < xs.length →
      (ffillAux last xs)[i]? =
        some (Option.or ((xs.take (i + 1)).filterMap id).getLast? last) := by
  induction xs with
  | nil =>
    intro last i h
    simp at h
  | cons x xs ih =>
    intro last i h
    cases x with
    | none =>
      cases i with
      | zero =>
        simp [ffillAux]
      | succ n =>
        rw [show ffillAux last (none :: xs) = last :: ffillAux last xs from rfl,
          List.getElem?_cons_succ, ih last n (by simpa using h),
          List.take_succ_cons,
          List.filterMap_cons_none (f := id) (a := (none : Option α)) rfl]
    | some v =>
      cases i with
      | zero =>
        rw [show ffillAux last (some v :: xs) = some v :: ffillAux (some v) xs from rfl,
          List.getElem?_cons_zero, List.take_succ_cons, List.take_zero,
          List.filterMap_cons_some (f := id) (a := some v) (b := v) rfl]
        rfl
      | succ n =>
        rw [show ffillAux last (some v :: xs) = some v :: ffillAux (some v) xs from rfl,
          List.getElem?_cons_succ, ih (some v) n (by simpa using h),
          List.take_succ_cons,
          List.filterMap_cons_some (f := id) (a := some v) (b := v) rfl,
          getLast?_cons_or]
        cases ((xs.take (n + 1)).filterMap id).getLast? <;> rfl

theorem ffill_getElem? {α : Type} (xs : List (Option α)) (i : Nat)
    (h : i < xs.length) :
    (ffill xs)[i]? = some ((xs.take (i + 1)).filterMap id).getLast? := by
  rw [ffill, ffillAux_getElem? xs none i h]
  cases ((xs.take (i + 1)).filterMap id).getLast? <;> rfl

theorem county_column_getElem? (vocab tokens : List String)
    (cells : List (Option String)) (i : Nat) (h : i < cells.length) :
    (county_column vocab tokens cells)[i]? =
      some ((cells.take (i + 1)).filterMap (where_county vocab tokens)).getLast? := by
  rw [county_column,
    ffill_getElem? (cells.map (where_county vocab tokens)) i (by simpa using h),
    ← List.map_take, List.filterMap_map]
  rfl

/-! ## First-occurrence unique lemmas -/

theorem mem_pdUniqueAux {α : Type} [DecidableEq α] (l : List α) :
    ∀ (seen : List α) (a : α), a ∈ pdUniqueAux seen l ↔ a ∈ l ∧ a ∉ seen := by
  induction l with
  | nil => intro seen a; simp [pdUniqueAux]
  | cons x xs ih =>
    intro seen a
    simp only [pdUniqueAux]
    split
    · rename_i hx
      have hxm : x ∈ seen := by simpa using hx
      rw [ih]
      simp only [List.mem_cons]
      constructor
      · rintro ⟨h1, h2⟩
        exact ⟨Or.inr h1, h2⟩
      · rintro ⟨h1 | h1, h2⟩
        · subst h1; exact absurd hxm h2
        · exact ⟨h1, h2⟩
    · rename_i hx
      have hxm : x ∉ seen := by simpa using hx
      simp only [List.mem_cons, ih]
      constructor
      · rintro (rfl | ⟨h1, h2⟩)
        · exact ⟨Or.inl rfl, hxm⟩
        · refine ⟨Or.inr h1, fun hs => h2 ?_⟩
          exact Or.inr hs
      · rintro ⟨h1 | h1, h2⟩
        · exact Or.inl h1
        · by_cases hax : a = x
          · exact Or.inl hax
          · refine Or.inr ⟨h1, fun hmem => ?_⟩
            rcases hmem with h | h
            · exact hax h
            · exact h2 h

theorem nodup_pdUniqueAux {α : Type} [DecidableEq α] (l : List α) :
    ∀ seen : List α, (pdUniqueAux seen l).Nodup := by
  induction l with
  | nil => intro seen; simp [pdUniqueAux]
  | cons x xs ih =>
    intro seen
    simp only [pdUniqueAux]
    split
    · exact ih seen
    · refine List.Nodup.cons ?_ (ih (x :: seen))
      intro hmem
      rw [mem_pdUniqueAux] at hmem
      exact hmem.2 (List.mem_cons_self x seen)

theorem pdUnique_nodup {α : Type} [DecidableEq α] (l : List α) :
    (pdUnique l).Nodup :=
  nodup_pdUniqueAux l []

theorem mem_pdUnique {α : Type} [DecidableEq α] (l : List α) (a : α) :
    a ∈ pdUnique l ↔ a ∈ l := by
  simp [pdUnique, mem_pdUniqueAux]

theorem pdUniqueAux_append_all_eq {α : Type} [DecidableEq α] (k : α) :
    ∀ t : List α, (∀ x ∈ t, x = k) → ∀ (seen l2 : List α), k ∈ seen →
      pdUniqueAux seen (t ++ l2) = pdUniqueAux seen l2 := by
  intro t
  induction t with
  | nil => intro _ seen l2 _; rfl
  | cons y t ih =>
    intro hall seen l2 hk
    have hy : y = k := hall y (List.mem_cons_self _ _)
    subst hy
    simp only [List.cons_append, pdUniqueAux]
    rw [if_pos (by simpa using hk)]
    exact ih (fun x hx => hall x (List.mem_cons_of_mem _ hx)) seen l2 hk

theorem pdUniqueAux_flatMap_blocks {α β : Type} [DecidableEq α] :
    ∀ (ks : List α) (f : α → List β) (g : β → α) (seen : List α),
      ks.Nodup → (∀ k ∈ ks, k ∉ seen) → (∀ k ∈ ks, f k ≠ []) →
      (∀ k ∈ ks, ∀ x ∈ f k, g x = k) →
      pdUniqueAux seen ((ks.flatMap f).map g) = ks := by
  intro ks
  induction ks with
  | nil => intro f g seen _ _ _ _; rfl
  | cons k ks ih =>
    intro f g seen hnd hseen hne hkey
    have hknotin : k ∉ ks := (List.nodup_cons.mp hnd).1
    rcases hfk : f k with _ | ⟨b, bs⟩
    · exact absurd hfk (hne k (List.mem_cons_self _ _))
    · rw [List.flatMap_cons, List.map_append, hfk, List.map_cons,
        show g b = k from hkey k (List.mem_cons_self _ _) b
          (by rw [hfk]; exact List.mem_cons_self _ _),
        List.cons_append]
      simp only [pdUniqueAux]
      rw [if_neg (by simpa using hseen k (List.mem_cons_self _ _))]
      rw [pdUniqueAux_append_all_eq k (bs.map g) ?hall (k :: seen)
        ((ks.flatMap f).map g) (List.mem_cons_self _ _)]
      case hall =>
        intro x hx
        obtain ⟨r, hr, rfl⟩ := List.mem_map.mp hx
        exact hkey k (List.mem_cons_self _ _) r (by rw [hfk]; exact List.mem_cons_of_mem _ hr)
      rw [ih f g (k :: seen) (List.nodup_cons.mp hnd).2 ?hseen2
        (fun q hq => hne q (List.mem_cons_of_mem _ hq))
        (fun q hq => hkey q (List.mem_cons_of_mem _ hq))]
      case hseen2 =>
        intro q hq hmem
        rcases List.mem_cons.mp hmem with h | h
        · exact hknotin (h ▸ hq)
        · exact hseen q (List.mem_cons_of_mem _ hq) h

theorem filter_flatMap_blocks {α β : Type} [DecidableEq α] :
    ∀ (ks : List α) (f : α → List β) (g : β → α) (k : α),
      ks.Nodup → k ∈ ks → (∀ q ∈ ks, ∀ x ∈ f q, g x = q) →
      (ks.flatMap f).filter (fun x => decide (g x = k)) = f k := by
  intro ks
  induction ks with
  | nil => intro f g k _ hk _; simp at hk
  | cons q ks ih =>
    intro f g k hnd hk hkey
    rw [List.flatMap_cons, List.filter_append]
    rcases List.mem_cons.mp hk with rfl | hk2
    · have h1 : (f k).filter (fun x => decide (g x = k)) = f k :=
        List.filter_eq_self.mpr
          (fun x hx => by simp [hkey k (List.mem_cons_self _ _) x hx])
      have h2 : ((ks.flatMap f).filter (fun x => decide (g x = k))) = [] := by
        rw [List.filter_eq_nil_iff]
        intro x hx
        obtain ⟨q2, hq2, hxq2⟩ := List.mem_flatMap.mp hx
        have hgx : g x = q2 := hkey q2 (List.mem_cons_of_mem _ hq2) x hxq2
        have hne : q2 ≠ k := fun h => (List.nodup_cons.mp hnd).1 (h ▸ hq2)
        simp [hgx, hne]
      rw [h1, h2, List.append_nil]
    · have hqk : q ≠ k := fun h => (List.nodup_cons.mp hnd).1 (h ▸ hk2)
      have h1 : (f q).filter (fun x => decide (g x = k)) = [] := by
        rw [List.filter_eq_nil_iff]
        intro x hx
        simp [hkey q (List.mem_cons_self _ _) x hx, hqk]
      rw [h1, List.nil_append]
      exact ih f g k (List.nodup_cons.mp hnd).2 hk2
        (fun q2 hq2 => hkey q2 (List.mem_cons_of_mem _ hq2))

/-! ## Sort and merge-block lemmas -/

theorem insertKey_perm (x : Nat × String × String)
    (l : List (Nat × String × String)) : (insertKey x l).Perm (x :: l) := by
  induction l with
  | nil => exact List.Perm.refl _
  | cons y ys ih =>
    simp only [insertKey]
    split
    · exact List.Perm.refl _
    · exact (ih.cons y).trans (List.Perm.swap x y ys)

theorem sortKeys_perm (l : List (Nat × String × String)) :
    (sortKeys l).Perm l := by
  induction l with
  | nil => exact List.Perm.refl _
  | cons x xs ih => exact (insertKey_perm x (sortKeys xs)).trans (ih.cons x)

theorem blockFun_ne_nil (rows : List LBDataRow) (k : Nat × String × String) :
    blockFun rows k ≠ [] := by
  rw [blockFun]
  split <;> simp

theorem blockFun_key (rows : List LBDataRow) (k : Nat × String × String) :
    ∀ x ∈ blockFun rows k, x.1 = k := by
  intro x hx
  rw [blockFun] at hx
  split at hx
  · rw [List.mem_singleton] at hx
    rw [hx]
  · obtain ⟨r, hr, rfl⟩ := List.mem_map.mp hx
    rfl

/-! ## Claims -/

/-- C2: after label reconstruction, the county column at each row equals the
value of the most recent row at or before it whose primary cell satisfies the
county classifier (equivalently: the last classifier-passing cell of the
row prefix); the live-births variant additionally strips that value; and
rows with no county-qualifying cell at or before them are missing. -/
theorem county_forward_fill_spec (vocab tokens : List String)
    (cells : List (Option String)) (i : Nat) (h : i < cells.length) :
    (county_column vocab tokens cells)[i]? =
      some ((cells.take (i + 1)).filterMap (where_county vocab tokens)).getLast?
    ∧ ((county_column vocab tokens cells).map (Option.map pyStrip))[i]? =
      some (Option.map pyStrip
        ((cells.take (i + 1)).filterMap (where_county vocab tokens)).getLast?)
    ∧ ((∀ c ∈ cells.take (i + 1), is_county vocab tokens c = false) →
        (county_column vocab tokens cells)[i]? = some none) := by
  refine ⟨county_column_getElem? vocab tokens cells i h, ?_, ?_⟩
  · rw [List.getElem?_map, county_column_getElem? vocab tokens cells i h]
    rfl
  · intro hnone
    rw [county_column_getElem? vocab tokens cells i h]
    have : (cells.take (i + 1)).filterMap (where_county vocab tokens) = [] := by
      rw [List.filterMap_eq_nil_iff]
      intro c hc
      rw [where_county, hnone c hc]
      rfl
    rw [this]
    rfl

/-- C2 witness: the reconstruction evaluated at the second row of a concrete
three-cell column. -/
theorem county_forward_fill_spec_witness :
    (county_column race_list header_tokens county_example_cells)[1]? =
      some ((county_example_cells.take 2).filterMap
        (where_county race_list header_tokens)).getLast?
    ∧ ((county_column race_list header_tokens county_example_cells).map
        (Option.map pyStrip))[1]? =
      some (Option.map pyStrip
        ((county_example_cells.take 2).filterMap
          (where_county race_list header_tokens)).getLast?)
    ∧ ((∀ c ∈ county_example_cells.take 2,
          is_county race_list header_tokens c = false) →
        (county_column race_list header_tokens county_example_cells)[1]? =
          some none) :=
  county_forward_fill_spec race_list header_tokens county_example_cells 1
    (by decide)

/-- Unfolding of the county classifier on a present cell: the three-way
if-chain of the source. -/
theorem is_county_some (vocab tokens : List String) (s : String) :
    is_county vocab tokens (some s) =
      (if vocab.contains (pyStrip s) = true then false
       else if tokens.contains (pyStrip s) = true then false
       else if pyStartsWith (pyStrip s) "Year" = true then false else true) := rfl

/-- C3: over any vocabulary whose members are not structural (none is a
header token or "Year"-prefixed, as holds for every vocabulary configured in
the repository), the classification of a non-missing trimmed cell value into
structural token, vocabulary member, or county label is total and mutually
exclusive. -/
theorem classification_total_exclusive (vocab tokens : List String)
    (s : String) (hv : ∀ v ∈ vocab, is_structural tokens v = false) :
    (is_structural tokens (pyStrip s) = true ∨
      vocab.contains (pyStrip s) = true ∨
      is_county vocab tokens (some s) = true)
    ∧ (is_structural tokens (pyStrip s) = true →
        vocab.contains (pyStrip s) = false ∧
        is_county vocab tokens (some s) = false)
    ∧ (vocab.contains (pyStrip s) = true →
        is_county vocab tokens (some s) = false) := by
  by_cases hc : vocab.contains (pyStrip s) = true
  · have hmem : pyStrip s ∈ vocab := by simpa using hc
    have hns := hv _ hmem
    refine ⟨Or.inr (Or.inl hc), fun hst => absurd hst (by simp [hns]),
      fun _ => ?_⟩
    rw [is_county_some, if_pos hc]
  · have hcf : vocab.contains (pyStrip s) = false := by simpa using hc
    by_cases hst : is_structural tokens (pyStrip s) = true
    · have hcounty : is_county vocab tokens (some s) = false := by
        rw [is_structural, Bool.or_eq_true] at hst
        rcases hst with htok | hyear
        · rw [is_county_some, if_neg hc, if_pos htok]
        · by_cases htok2 : tokens.contains (pyStrip s) = true
          · rw [is_county_some, if_neg hc, if_pos htok2]
          · rw [is_county_some, if_neg hc, if_neg htok2,
              if_pos hyear]
      exact ⟨Or.inl hst, fun _ => ⟨hcf, hcounty⟩, fun hcc => absurd hcc hc⟩
    · have hstf : is_structural tokens (pyStrip s) = false := by simpa using hst
      rw [is_structural, Bool.or_eq_false_iff] at hstf
      obtain ⟨htok, hyear⟩ := hstf
      refine ⟨Or.inr (Or.inr ?_), fun hstt => absurd hstt hst,
        fun hcc => absurd hcc hc⟩
      rw [is_county_some, if_neg hc, if_neg (by rw [htok]; simp),
        if_neg (by rw [hyear]; simp)]

/-- C3 witness: the race vocabulary together with the concrete county cell
"Tulsa County". -/
theorem classification_total_exclusive_witness :
    (is_structural header_tokens (pyStrip "Tulsa County") = true ∨
      race_list.contains (pyStrip "Tulsa County") = true ∨
      is_county race_list header_tokens (some "Tulsa County") = true)
    ∧ (is_structural header_tokens (pyStrip "Tulsa County") = true →
        race_list.contains (pyStrip "Tulsa County") = false ∧
        is_county race_list header_tokens (some "Tulsa County") = false)
    ∧ (race_list.contains (pyStrip "Tulsa County") = true →
        is_county race_list header_tokens (some "Tulsa County") = false) :=
  classification_total_exclusive race_list header_tokens "Tulsa County"
    (by decide)

/-- C4: the measure extractor maps the sentinel ".", and every string on
which numeric coercion fails, to 0; maps the numeric string "0" to 0; and
maps "12.5" to the rational 12.5, preserving the fraction. -/
theorem measure_extractor_spec :
    to_measure (some ".") = 0
    ∧ (∀ s : String, parseNum s = none → to_measure (some s) = 0)
    ∧ to_measure (some "0") = 0
    ∧ to_measure (some "12.5") = 12.5 := by
  refine ⟨by decide, ?_, by with_unfolding_all decide,
    by with_unfolding_all decide⟩
  intro s hparse
  by_cases hdot : s = "."
  · subst hdot; decide
  · simp [to_measure, hdot, hparse]

/-- C4 witness: the extractor applied to the unparseable string "abc". -/
theorem measure_extractor_spec_witness : to_measure (some "abc") = 0 :=
  measure_extractor_spec.2.1 "abc" (by decide)

/-- C5: on the five-row deaths example with sex "Male", the assembler
returns exactly three tidy rows, in input order; the first input row is
discarded (its second cell is not a race) yet the year 2020 and the label
"2020 Total" it carries forward-fill into the two retained rows that follow,
and the county header row propagates "Oklahoma County" into the last row. -/
theorem deaths_example_end_to_end :
    clean_deaths_dataframe deaths_example_input "Male" =
      [⟨some 2020, some "2020 Total", "Male", "White", 3⟩,
       ⟨some 2020, some "2020 Total", "Male", "Black or African American", 2⟩,
       ⟨some 2020, some "Oklahoma County", "Male", "White", 1⟩] := by
  with_unfolding_all decide

/-- C6: in the live-births demographic extraction, the primary column takes
priority: whenever `col0` is an exact vocabulary member the category is
`col0`, and only when `col0` is not a member does `col1` (filtered to exact
members) supply the category. -/
theorem demo_value_priority (demo_list : List String) (c0 c1 : Option String) :
    (∀ v, c0 = some v → demo_list.contains v = true →
      demo_value demo_list c0 c1 = some v)
    ∧ ((∀ v, c0 = some v → demo_list.contains v = false) →
      demo_value demo_list c0 c1 =
        Option.filter (fun s => demo_list.contains s) c1) := by
  constructor
  · intro v hv hcont
    subst hv
    rw [demo_value]
    rw [show Option.filter (fun s => demo_list.contains s) (some v) = some v by
      show (if demo_list.contains v = true then some v else none) = some v
      rw [if_pos hcont]]
    rfl
  · intro hnone
    cases c0 with
    | none => rfl
    | some v =>
      have hcf : demo_list.contains v = false := hnone v rfl
      rw [demo_value]
      rw [show Option.filter (fun s => demo_list.contains s) (some v) = none by
        show (if demo_list.contains v = true then some v else none) = none
        rw [if_neg (by rw [hcf]; simp)]]
      rfl

/-- C6 witness: both candidate columns hold vocabulary members; the primary
wins. -/
theorem demo_value_priority_witness :
    demo_value example_vocab (some "A") (some "B") = some "A" :=
  (demo_value_priority example_vocab (some "A") (some "B")).1 "A" rfl (by decide)

/-- C7: each cleaning transformation is a deterministic function of its
input table and configuration — equal inputs and equal vocabulary or sex
arguments give identical outputs. -/
theorem cleaning_deterministic (df1 df2 : List RawRow) (sex1 sex2 : String)
    (dl1 dl2 : List String) (hdf : df1 = df2) (hsex : sex1 = sex2)
    (hdl : dl1 = dl2) :
    clean_deaths_dataframe df1 sex1 = clean_deaths_dataframe df2 sex2
    ∧ clean_birth_rate_dataframe df1 dl1 = clean_birth_rate_dataframe df2 dl2
    ∧ clean_live_births_dataframe df1 dl1 =
        clean_live_births_dataframe df2 dl2 := by
  subst hdf
  subst hsex
  subst hdl
  exact ⟨rfl, rfl, rfl⟩

/-- C7 witness: two runs on the example deaths table. -/
theorem cleaning_deterministic_witness :
    clean_deaths_dataframe deaths_example_input "Male" =
      clean_deaths_dataframe deaths_example_input "Male"
    ∧ clean_birth_rate_dataframe deaths_example_input race_list =
      clean_birth_rate_dataframe deaths_example_input race_list
    ∧ clean_live_births_dataframe deaths_example_input race_list =
      clean_live_births_dataframe deaths_example_input race_list :=
  cleaning_deterministic deaths_example_input deaths_example_input
    "Male" "Male" race_list race_list rfl rfl rfl

/-- C8: every cleaning transformation is total on tables of the documented
positional shape — each returns a value for every input — and a missing or
unparseable measure cell never fails: it is coerced to missing and stored
as 0. -/
theorem cleaning_total_no_raise (df : List RawRow) (sex : String)
    (demo_list : List String) :
    (∃ out, clean_deaths_dataframe df sex = out)
    ∧ (∃ out, clean_birth_rate_dataframe df demo_list = out)
    ∧ (∃ out, clean_live_births_dataframe df demo_list = out)
    ∧ to_measure none = 0
    ∧ (∀ s : String, parseNum s = none → to_measure (some s) = 0) := by
  refine ⟨⟨_, rfl⟩, ⟨_, rfl⟩, ⟨_, rfl⟩, rfl, ?_⟩
  intro s hparse
  by_cases hdot : s = "."
  · subst hdot; rfl
  · simp [to_measure, hdot, hparse]

/-- C8 witness: a leaked header fragment as a measure cell is stored as 0. -/
theorem cleaning_total_no_raise_witness :
    to_measure (some "County of Residence") = 0 :=
  (cleaning_total_no_raise [] "" []).2.2.2.2 "County of Residence" (by decide)

/-- C10: no cleaning call mutates the frame of the caller: the input table seen
by the caller after each call is the argument unchanged (the source rebinds
`df` to a renamed copy and edits only that copy). -/
theorem input_frame_preserved (df : List RawRow) (sex : String)
    (demo_list : List String) :
    (clean_deaths_call df sex).1 = df
    ∧ (clean_birth_rate_call df demo_list).1 = df
    ∧ (clean_live_births_call df demo_list).1 = df :=
  ⟨rfl, rfl, rfl⟩

/-- C9: every deaths output row carries a race that is an exact vocabulary
member and the caller-supplied sex, and every birth-rate output row carries
an exact vocabulary member; each output row arises from a classified data
row of the reconstructed input frame (no synthetic grid completion), with
its measures coerced from the cells of that row.  The fixed output column order
(year, county, sex, race, deaths / year, county, demo, births, population,
birth_rate) is the field order of the output records. -/
theorem no_synthetic_rows (df : List RawRow) (sex : String)
    (demo_list : List String) :
    (∀ rec ∈ clean_deaths_dataframe df sex,
      rec.race ∈ race_list ∧ rec.sex = sex ∧
      ∃ p ∈ deaths_stage df, p.1.col1 = some rec.race ∧ p.2.1 = rec.year ∧
        p.2.2 = rec.county ∧ to_measure p.1.col2 = rec.deaths)
    ∧ (∀ rec ∈ clean_birth_rate_dataframe df demo_list,
      rec.demo ∈ demo_list ∧
      ∃ p ∈ birth_rate_stage df demo_list, p.1.col1 = some rec.demo ∧
        p.2.1 = rec.year ∧ p.2.2 = rec.county ∧
        to_measure p.1.col2 = rec.births ∧
        to_measure p.1.col3 = rec.population ∧
        to_measure p.1.col4 = rec.birth_rate) := by
  constructor
  · intro rec hrec
    rw [clean_deaths_dataframe] at hrec
    obtain ⟨p, hp, hf⟩ := List.mem_filterMap.mp hrec
    revert hf
    cases hc : p.1.col1 with
    | none => intro hf; exact absurd hf (by simp)
    | some v =>
      intro hf
      rw [show (match some v with
          | some v =>
            if race_list.contains v = true then
              some (⟨p.2.1, p.2.2, sex, v, to_measure p.1.col2⟩ : DeathsRecord)
            else none
          | none => none) =
          (if race_list.contains v = true then
            some (⟨p.2.1, p.2.2, sex, v, to_measure p.1.col2⟩ : DeathsRecord)
          else none) from rfl] at hf
      by_cases hm : race_list.contains v = true
      · rw [if_pos hm] at hf
        obtain rfl : (⟨p.2.1, p.2.2, sex, v, to_measure p.1.col2⟩ : DeathsRecord)
            = rec := by injection hf
        exact ⟨by simpa using hm, rfl, p, hp, hc, rfl, rfl, rfl⟩
      · rw [if_neg hm] at hf
        exact absurd hf (by simp)
  · intro rec hrec
    rw [clean_birth_rate_dataframe] at hrec
    obtain ⟨p, hp, hf⟩ := List.mem_filterMap.mp hrec
    revert hf
    cases hc : p.1.col1 with
    | none => intro hf; exact absurd hf (by simp)
    | some v =>
      intro hf
      rw [show (match some v with
          | some v =>
            if demo_list.contains v = true then
              some (⟨p.2.1, p.2.2, v, to_measure p.1.col2, to_measure p.1.col3,
                to_measure p.1.col4⟩ : BirthRateRecord)
            else none
          | none => none) =
          (if demo_list.contains v = true then
            some (⟨p.2.1, p.2.2, v, to_measure p.1.col2, to_measure p.1.col3,
              to_measure p.1.col4⟩ : BirthRateRecord)
          else none) from rfl] at hf
      by_cases hm : demo_list.contains v = true
      · rw [if_pos hm] at hf
        obtain rfl : (⟨p.2.1, p.2.2, v, to_measure p.1.col2, to_measure p.1.col3,
            to_measure p.1.col4⟩ : BirthRateRecord) = rec := by injection hf
        exact ⟨by simpa using hm, p, hp, hc, rfl, rfl, rfl, rfl, rfl⟩
      · rw [if_neg hm] at hf
        exact absurd hf (by simp)

/-- C9 witness: the first record of the deaths example. -/
theorem no_synthetic_rows_witness :
    deaths_example_rec.race ∈ race_list ∧ deaths_example_rec.sex = "Male" ∧
    ∃ p ∈ deaths_stage deaths_example_input,
      p.1.col1 = some deaths_example_rec.race ∧
      p.2.1 = deaths_example_rec.year ∧ p.2.2 = deaths_example_rec.county ∧
      to_measure p.1.col2 = deaths_example_rec.deaths :=
  (no_synthetic_rows deaths_example_input "Male" race_list).1
    deaths_example_rec (by with_unfolding_all decide)

/-- Grid completion and aggregation over an arbitrary duplicate-free grid:
the grouped merge has one record per grid key; its keys are exactly the grid
keys; a key with no matching data row aggregates to (0, 0); a key with
matching rows aggregates to their live-birth sum and percentage mean. -/
theorem groupby_agg_merged (rows : List LBDataRow)
    (grid : List (Nat × String × String)) (hgridnd : grid.Nodup) :
    (groupby_agg (merged_rows rows grid)).length = grid.length
    ∧ ((groupby_agg (merged_rows rows grid)).map
        (fun rec => (rec.year, rec.county, rec.demo))).Nodup
    ∧ ∀ rec ∈ groupby_agg (merged_rows rows grid),
        (matching_rows rows (rec.year, rec.county, rec.demo) = [] →
          rec.live_births = 0 ∧ rec.percent_live_births = 0)
        ∧ (∀ m ms,
            matching_rows rows (rec.year, rec.county, rec.demo) = m :: ms →
            rec.live_births = ((m :: ms).map LBDataRow.live_births).sum
            ∧ rec.percent_live_births =
                ((m :: ms).map LBDataRow.percent_live_births).sum /
                  (((m :: ms).length : Nat) : ℚ)) := by
  have hkeys : pdUnique ((merged_rows rows grid).map (fun r => r.1)) = grid := by
    rw [merged_rows, pdUnique]
    exact pdUniqueAux_flatMap_blocks grid (blockFun rows) (fun r => r.1) []
      hgridnd (by simp) (fun k _ => blockFun_ne_nil rows k)
      (fun k _ => blockFun_key rows k)
  have hout : groupby_agg (merged_rows rows grid) =
      (sortKeys grid).map (agg_key (merged_rows rows grid)) := by
    rw [groupby_agg, hkeys]
  refine ⟨?_, ?_, ?_⟩
  · rw [hout, List.length_map, (sortKeys_perm grid).length_eq]
  · have hmk : (groupby_agg (merged_rows rows grid)).map
        (fun rec => (rec.year, rec.county, rec.demo)) = sortKeys grid := by
      rw [hout, List.map_map,
        show ((fun rec : LiveBirthsRecord => (rec.year, rec.county, rec.demo)) ∘
          agg_key (merged_rows rows grid)) = id from rfl, List.map_id]
    rw [hmk]
    exact ((sortKeys_perm grid).nodup_iff).mpr hgridnd
  · intro rec hrec
    rw [hout] at hrec
    obtain ⟨k, hk, rfl⟩ := List.mem_map.mp hrec
    have hkg : k ∈ grid := (sortKeys_perm grid).mem_iff.mp hk
    have hgrp : (merged_rows rows grid).filter (fun r => decide (r.1 = k)) =
        blockFun rows k := by
      rw [merged_rows]
      exact filter_flatMap_blocks grid (blockFun rows) (fun r => r.1) k
        hgridnd hkg (fun q _ => blockFun_key rows q)
    have hkey_eq : ((agg_key (merged_rows rows grid) k).year,
        (agg_key (merged_rows rows grid) k).county,
        (agg_key (merged_rows rows grid) k).demo) = k := rfl
    rw [hkey_eq]
    constructor
    · intro hmr
      have hblock : blockFun rows k = [(k, 0, 0)] := by rw [blockFun, hmr]
      constructor
      · show (((merged_rows rows grid).filter (fun r => decide (r.1 = k))).map
            (fun r => r.2.1)).sum = 0
        rw [hgrp, hblock]
        simp
      · show (((merged_rows rows grid).filter (fun r => decide (r.1 = k))).map
            (fun r => r.2.2)).sum /
            ((((merged_rows rows grid).filter
              (fun r => decide (r.1 = k))).length : Nat) : ℚ) = 0
        rw [hgrp, hblock]
        simp
    · intro m ms hmr
      have hblock : blockFun rows k =
          (m :: ms).map (fun r => (k, r.live_births, r.percent_live_births)) := by
        rw [blockFun, hmr]
      constructor
      · show (((merged_rows rows grid).filter (fun r => decide (r.1 = k))).map
            (fun r => r.2.1)).sum = ((m :: ms).map LBDataRow.live_births).sum
        rw [hgrp, hblock, List.map_map]
        rfl
      · show (((merged_rows rows grid).filter (fun r => decide (r.1 = k))).map
            (fun r => r.2.2)).sum /
            ((((merged_rows rows grid).filter
              (fun r => decide (r.1 = k))).length : Nat) : ℚ) =
            ((m :: ms).map LBDataRow.percent_live_births).sum /
              (((m :: ms).length : Nat) : ℚ)
        rw [hgrp, hblock, List.map_map, List.length_map]
        rfl

/-- C1: for every input table and duplicate-free configured vocabulary, the
live-births assembler emits exactly (distinct observed years) times (distinct
observed counties) times (vocabulary size) rows; no (year, county, category)
key repeats after aggregation; a key with no classified source row carries
live_births 0 and percent_live_births 0; and a key with classified source
rows carries the sum of their live_births and the arithmetic mean of their
percent_live_births. -/
theorem live_births_grid_completion (df : List RawRow) (dl : List String)
    (hnd : dl.Nodup) :
    (clean_live_births_dataframe df dl).length =
      (observed_years (lb_classified df dl)).length *
        ((observed_counties (lb_classified df dl)).length * dl.length)
    ∧ ((clean_live_births_dataframe df dl).map
        (fun rec => (rec.year, rec.county, rec.demo))).Nodup
    ∧ ∀ rec ∈ clean_live_births_dataframe df dl,
        (matching_rows (lb_classified df dl) (rec.year, rec.county, rec.demo)
            = [] →
          rec.live_births = 0 ∧ rec.percent_live_births = 0)
        ∧ (∀ m ms,
            matching_rows (lb_classified df dl) (rec.year, rec.county, rec.demo)
              = m :: ms →
            rec.live_births = ((m :: ms).map LBDataRow.live_births).sum
            ∧ rec.percent_live_births =
                ((m :: ms).map LBDataRow.percent_live_births).sum /
                  (((m :: ms).length : Nat) : ℚ)) := by
  have hgridnd : (full_index (observed_years (lb_classified df dl))
      (observed_counties (lb_classified df dl)) dl).Nodup := by
    rw [full_index]
    exact List.Nodup.product (pdUnique_nodup _)
      (List.Nodup.product (pdUnique_nodup _) hnd)
  have h := groupby_agg_merged (lb_classified df dl)
    (full_index (observed_years (lb_classified df dl))
      (observed_counties (lb_classified df dl)) dl) hgridnd
  refine ⟨?_, h.2.1, h.2.2⟩
  rw [show clean_live_births_dataframe df dl =
      groupby_agg (merged_rows (lb_classified df dl)
        (full_index (observed_years (lb_classified df dl))
          (observed_counties (lb_classified df dl)) dl)) from rfl,
    h.1, full_index]
  exact (List.length_product _ _).trans
    (congrArg (fun n => (observed_years (lb_classified df dl)).length * n)
      (List.length_product _ _))

/-- C1 witness: the live-births example with a two-element vocabulary, one
observed year and two observed counties gives a 1 by 2 by 2 output. -/
theorem live_births_grid_completion_witness :
    (clean_live_births_dataframe lb_example_input example_vocab).length =
      (observed_years (lb_classified lb_example_input example_vocab)).length *
        ((observed_counties (lb_classified lb_example_input example_vocab)).length *
          example_vocab.length) :=
  (live_births_grid_completion lb_example_input example_vocab (by decide)).1
